import Mathlib

/-!
Verification of the reminders-mcp-server core: the Swift EventKit gateway
(`native/RemindersEventKitHelper.swift`), the TypeScript EventKit service
(`src/services/eventkit.ts`) and the `reminders_list` tool handler
(`src/tools/lists.ts`).

Dates (Foundation `Date`, JS `Date`) are modelled as integers; external
library facilities (ISO formatters, `Calendar.current`, `JSON.parse`,
`new Date`) are modelled as components of an explicit environment `Env`,
so every theorem is quantified over the behaviour of those facilities.
-/

/-! ### Models of library string operations

Swift `localizedCaseInsensitiveCompare`, `trimmingCharacters(in:
.whitespacesAndNewlines)` and JS `trim()` are modelled over the character
list of a `String`, so that they compute by kernel reduction. -/

/-- Character list of a string, lower-cased; model of the case folding done
by Swift `localizedCaseInsensitiveCompare`. -/
def lowerData (s : String) : List Char :=
  s.data.map Char.toLower

/-- Strict lexicographic order on character lists. -/
def charListLt : List Char → List Char → Bool
  | [], [] => false
  | [], _ :: _ => true
  | _ :: _, [] => false
  | a :: as, b :: bs => if a < b then true else if b < a then false else charListLt as bs

/-- Model of Swift `lhs.localizedCaseInsensitiveCompare(rhs) == .orderedAscending`:
case-insensitive lexicographic comparison. -/
def caseInsensitiveLess (a b : String) : Bool :=
  charListLt (lowerData a) (lowerData b)

/-- Drop leading and trailing whitespace from a character list. -/
def trimData (l : List Char) : List Char :=
  ((l.dropWhile Char.isWhitespace).reverse.dropWhile Char.isWhitespace).reverse

/-- Model of Swift `trimmingCharacters(in: .whitespacesAndNewlines)` and of
JS `String.prototype.trim`. -/
def trimString (s : String) : String :=
  ⟨trimData s.data⟩

/-! ### Data model (EventKit objects, wire records, payloads) -/

/-- Model of Foundation `DateComponents` restricted to the six units this
program ever reads or writes. -/
structure DateComponents where
  year : Option Int
  month : Option Int
  day : Option Int
  hour : Option Int
  minute : Option Int
  second : Option Int
deriving Repr, DecidableEq

/-- Model of `EKAlarm`: only the `absoluteDate` property is ever used. -/
structure EKAlarm where
  absoluteDate : Option Int
deriving Repr, DecidableEq

/-- Model of `EKCalendar` (a reminder list). -/
structure EKCalendar where
  calendarIdentifier : String
  title : String
deriving Repr, DecidableEq

/-- Model of `EKReminder`; `calendar` holds the owning list by value. -/
structure EKReminder where
  calendarItemIdentifier : String
  title : String
  notes : Option String
  isCompleted : Bool
  completionDate : Option Int
  dueDateComponents : Option DateComponents
  alarms : Option (List EKAlarm)
  priority : Int
  creationDate : Option Int
  lastModifiedDate : Option Int
  calendar : EKCalendar
deriving Repr, DecidableEq

/-- Model of `EKEventStore`: the calendars and reminders of the native
store; `reminders` is kept in the (unspecified) order EventKit fetches
return, which `fetchReminders` preserves. -/
structure EKEventStore where
  calendars : List EKCalendar
  reminders : List EKReminder
deriving Repr, DecidableEq

/-- The calendar parts extracted by `Calendar.current.dateComponents`. -/
structure CalParts where
  year : Int
  month : Int
  day : Int
  hour : Int
  minute : Int
  second : Int
deriving Repr, DecidableEq

/-- Environment of external library facilities used by the program.  Each
field models one Foundation / EventKit / JS facility; theorems quantify
over all environments. -/
structure Env where
  /-- `isoFormatterWithFractionalSeconds.date(from:)` -/
  isoFracParse : String → Option Int
  /-- `isoFormatterWithoutFractionalSeconds.date(from:)` -/
  isoNoFracParse : String → Option Int
  /-- `allDayDateFormatter.date(from:)` (format `yyyy-MM-dd`) -/
  allDayParse : String → Option Int
  /-- `Calendar.current.dateComponents(..., from: date)` -/
  components6 : Int → CalParts
  /-- `Calendar.current.date(from: components)` (modelled total: Foundation
  fills missing components with defaults) -/
  dateFromComponents : DateComponents → Int
  /-- `isoFormatterWithFractionalSeconds.string(from:)` -/
  isoFormat : Int → String
  /-- `Date()` at the time of the operation / `new Date()` -/
  now : Int
  /-- `Date.distantPast` -/
  distantPast : Int
  /-- `calendarItemIdentifier` of a freshly constructed `EKReminder` -/
  freshId : String
  /-- JS `new Date(string)` followed by the `Number.isNaN(getTime())`
  check: `none` when the string does not parse -/
  jsDateParse : String → Option Int

/-- Wire record for one reminder as emitted by the gateway
(`ReminderRecord` in the Swift source). -/
structure ReminderRecord where
  id : String
  name : String
  body : Option String
  completed : Bool
  completionDate : Option String
  dueDate : Option String
  allDayDueDate : Option String
  remindMeDate : Option String
  priority : Int
  creationDate : Option String
  modificationDate : Option String
  listName : String
deriving Repr, DecidableEq

/-- `ListRemindersResult` in the Swift source. -/
structure ListRemindersResult where
  total : Int
  reminders : List ReminderRecord
deriving Repr, DecidableEq

/-- `CountResult` in the Swift source. -/
structure CountResult where
  count : Int
deriving Repr, DecidableEq

/-- `CreateIdResult` in the Swift source. -/
structure CreateIdResult where
  id : String
deriving Repr, DecidableEq

/-- `EmptyResult` in the Swift source. -/
structure EmptyResult where
deriving Repr, DecidableEq

/-- `ListRemindersPayload` in the Swift source. -/
structure ListRemindersPayload where
  listName : Option String
  completed : Option Bool
  limit : Option Int
  offset : Option Int
deriving Repr, DecidableEq

/-- `CountRemindersPayload` in the Swift source. -/
structure CountRemindersPayload where
  listName : Option String
  completed : Option Bool
deriving Repr, DecidableEq

/-- `CreateReminderPayload` in the Swift source. -/
structure CreateReminderPayload where
  name : String
  listName : String
  body : Option String
  dueDate : Option String
  allDayDueDate : Option String
  remindMeDate : Option String
  priority : Option Int
deriving Repr, DecidableEq

/-- `UpdateReminderPayload` in the Swift source. -/
structure UpdateReminderPayload where
  listName : String
  reminderName : String
  newName : Option String
  body : Option String
  dueDate : Option String
  allDayDueDate : Option String
  remindMeDate : Option String
  priority : Option Int
  completed : Option Bool
deriving Repr, DecidableEq

/-- `DeleteReminderPayload` in the Swift source. -/
structure DeleteReminderPayload where
  listName : String
  reminderName : String
deriving Repr, DecidableEq

namespace Gateway

/-- `parseISODate`: try the fractional-seconds formatter, then the plain
one (Swift lines 140-148). -/
def parseISODate (env : Env) (value : String) : Option Int :=
  match env.isoFracParse value with
  | some parsed => some parsed
  | none =>
    match env.isoNoFracParse value with
    | some parsed => some parsed
    | none => none

/-- `isoString`: format an optional date (Swift lines 150-153). -/
def isoString (env : Env) (value : Option Int) : Option String :=
  match value with
  | none => none
  | some v => some (env.isoFormat v)

/-- `dateComponentsFromISO` (Swift lines 155-162): all six components are
populated. -/
def dateComponentsFromISO (env : Env) (value : String) : Except String DateComponents :=
  match parseISODate env value with
  | none => .error ("Invalid ISO 8601 date: " ++ value)
  | some date =>
    let p := env.components6 date
    .ok ⟨some p.year, some p.month, some p.day, some p.hour, some p.minute, some p.second⟩

/-- `dateComponentsFromAllDay` (Swift lines 164-171): only year, month and
day are populated. -/
def dateComponentsFromAllDay (env : Env) (value : String) : Except String DateComponents :=
  match env.allDayParse value with
  | none => .error ("Invalid all-day date format (expected YYYY-MM-DD): " ++ value)
  | some date =>
    let p := env.components6 date
    .ok ⟨some p.year, some p.month, some p.day, none, none, none⟩

/-- `dueDate(from:)` (Swift lines 173-178). -/
def dueDate (env : Env) (reminder : EKReminder) : Option Int :=
  match reminder.dueDateComponents with
  | none => none
  | some components => some (env.dateFromComponents components)

/-- `isAllDayDueDate` (Swift lines 180-185). -/
def isAllDayDueDate (reminder : EKReminder) : Bool :=
  match reminder.dueDateComponents with
  | none => false
  | some components =>
    components.hour = none ∧ components.minute = none ∧ components.second = none

/-- `remindMeDate(from:)` (Swift lines 187-192): earliest absolute alarm. -/
def remindMeDate (reminder : EKReminder) : Option Int :=
  match reminder.alarms with
  | none => none
  | some alarms =>
    ((alarms.filterMap EKAlarm.absoluteDate).insertionSort (· ≤ ·)).head?

/-- `mapReminder` (Swift lines 194-212): EKReminder to wire record. -/
def mapReminder (env : Env) (reminder : EKReminder) : ReminderRecord :=
  let due := dueDate env reminder
  let allDayDue := if isAllDayDueDate reminder then due else none
  { id := reminder.calendarItemIdentifier
    name := reminder.title
    body := reminder.notes
    completed := reminder.isCompleted
    completionDate := isoString env reminder.completionDate
    dueDate := isoString env due
    allDayDueDate := isoString env allDayDue
    remindMeDate := isoString env (remindMeDate reminder)
    priority := reminder.priority
    creationDate := isoString env reminder.creationDate
    modificationDate := isoString env reminder.lastModifiedDate
    listName := reminder.calendar.title }

/-- `lhs.lastModifiedDate ?? lhs.creationDate ?? Date.distantPast`
(Swift lines 230-231). -/
def effectiveModification (env : Env) (r : EKReminder) : Int :=
  match r.lastModifiedDate with
  | some m => m
  | none =>
    match r.creationDate with
    | some c => c
    | none => env.distantPast

/-- Tie-break of the sort comparator (Swift lines 230-236): descending
effective modification date, then case-insensitive name. -/
def tieBreakLT (env : Env) (lhs rhs : EKReminder) : Bool :=
  if effectiveModification env lhs ≠ effectiveModification env rhs then
    decide (effectiveModification env lhs > effectiveModification env rhs)
  else caseInsensitiveLess lhs.title rhs.title

/-- The comparator passed to `sorted` in `sortReminders`
(Swift lines 215-237). -/
def reminderLT (env : Env) (lhs rhs : EKReminder) : Bool :=
  match dueDate env lhs, dueDate env rhs with
  | some l, some r => if l ≠ r then decide (l < r) else tieBreakLT env lhs rhs
  | none, some _ => false
  | some _, none => true
  | none, none => tieBreakLT env lhs rhs

/-- `sortReminders` (Swift lines 214-238).  Swift `sorted(by:)` is a
stable sort for the strict comparator, modelled as stable insertion sort
with the reflexive closure `¬ (rhs < lhs)` of the comparator. -/
def sortReminders (env : Env) (reminders : List EKReminder) : List EKReminder :=
  reminders.insertionSort (fun a b => reminderLT env b a = false)

/-- `allReminderCalendars` (Swift lines 276-278). -/
def allReminderCalendars (store : EKEventStore) : List EKCalendar :=
  store.calendars

/-- `calendarByName` (Swift lines 280-282). -/
def calendarByName (name : String) (calendars : List EKCalendar) : Option EKCalendar :=
  calendars.find? (fun c => c.title == name)

/-- `fetchReminders` (Swift lines 284-299): reminders of the selected
calendars (all of them when `calendars` is `nil`), in store order. -/
def fetchReminders (store : EKEventStore) (calendars : Option (List EKCalendar)) :
    List EKReminder :=
  match calendars with
  | none => store.reminders
  | some cs => store.reminders.filter (fun r => cs.any (fun c => decide (c = r.calendar)))

/-- `selectCalendars` (Swift lines 307-317). -/
def selectCalendars (listName : Option String) (allCalendars : List EKCalendar) :
    Except String (Option (List EKCalendar)) :=
  match listName with
  | none => .ok none
  | some n =>
    match calendarByName n allCalendars with
    | none => .error ("List \x27" ++ n ++ "\x27 not found")
    | some calendar => .ok (some [calendar])

/-- The completion filter step shared by `operationListReminders` and
`operationCountReminders` (Swift lines 332-334 / 353-355). -/
def completedFilter (completed : Option Bool) (reminders : List EKReminder) :
    List EKReminder :=
  match completed with
  | some c => reminders.filter (fun r => r.isCompleted == c)
  | none => reminders

/-- `operationListReminders` (Swift lines 326-346). -/
def operationListReminders (env : Env) (store : EKEventStore)
    (payload : ListRemindersPayload) : Except String ListRemindersResult := do
  let calendars := allReminderCalendars store
  let selectedCalendars ← selectCalendars payload.listName calendars
  let reminders := fetchReminders store selectedCalendars
  let reminders := completedFilter payload.completed reminders
  let reminders := sortReminders env reminders
  let total : Int := reminders.length
  let safeOffset : Int := max 0 (payload.offset.getD 0)
  let safeLimit : Int := max 1 (payload.limit.getD total)
  let paged := (reminders.drop safeOffset.toNat).take safeLimit.toNat
  .ok ⟨total, paged.map (mapReminder env)⟩

/-- `operationCountReminders` (Swift lines 348-358). -/
def operationCountReminders (store : EKEventStore)
    (payload : CountRemindersPayload) : Except String CountResult := do
  let calendars := allReminderCalendars store
  let selectedCalendars ← selectCalendars payload.listName calendars
  let reminders := fetchReminders store selectedCalendars
  let reminders := completedFilter payload.completed reminders
  .ok ⟨(reminders.length : Int)⟩

/-- The fresh `EKReminder(eventStore:)` object before any assignment in
`operationCreateReminder`: empty title, no notes, not completed, no due
date, no alarms, priority 0, not yet saved. -/
def freshReminder (env : Env) (calendar : EKCalendar) : EKReminder :=
  { calendarItemIdentifier := env.freshId
    title := ""
    notes := none
    isCompleted := false
    completionDate := none
    dueDateComponents := none
    alarms := none
    priority := 0
    creationDate := none
    lastModifiedDate := none
    calendar := calendar }

/-- `if let body = payload.body { reminder.notes = body }`. -/
def applyBodyOpt (body? : Option String) (reminder : EKReminder) : EKReminder :=
  match body? with
  | some body => { reminder with notes := some body }
  | none => reminder

/-- `if let newName = payload.newName { reminder.title = newName }`. -/
def applyNewNameOpt (newName? : Option String) (reminder : EKReminder) : EKReminder :=
  match newName? with
  | some newName => { reminder with title := newName }
  | none => reminder

/-- `if let dueDate = payload.dueDate { reminder.dueDateComponents =
try dateComponentsFromISO(dueDate) }`. -/
def applyDueOpt (env : Env) (dueDate? : Option String) (reminder : EKReminder) :
    Except String EKReminder :=
  match dueDate? with
  | some d =>
    match dateComponentsFromISO env d with
    | .error e => .error e
    | .ok components => .ok { reminder with dueDateComponents := some components }
  | none => .ok reminder

/-- `if let allDayDueDate = payload.allDayDueDate { reminder.dueDateComponents =
try dateComponentsFromAllDay(allDayDueDate) }`. -/
def applyAllDayOpt (env : Env) (allDayDueDate? : Option String) (reminder : EKReminder) :
    Except String EKReminder :=
  match allDayDueDate? with
  | some d =>
    match dateComponentsFromAllDay env d with
    | .error e => .error e
    | .ok components => .ok { reminder with dueDateComponents := some components }
  | none => .ok reminder

/-- `if let remindMeDate = payload.remindMeDate { guard let absoluteDate =
parseISODate(remindMeDate) else throw; reminder.alarms =
[EKAlarm(absoluteDate: absoluteDate)] }`. -/
def applyRemindOpt (env : Env) (remindMeDate? : Option String) (reminder : EKReminder) :
    Except String EKReminder :=
  match remindMeDate? with
  | some d =>
    match parseISODate env d with
    | none => .error ("Invalid ISO 8601 remindMeDate: " ++ d)
    | some absoluteDate => .ok { reminder with alarms := some [⟨some absoluteDate⟩] }
  | none => .ok reminder

/-- `if let priority = payload.priority { reminder.priority = priority }`. -/
def applyPriorityOpt (priority? : Option Int) (reminder : EKReminder) : EKReminder :=
  match priority? with
  | some p => { reminder with priority := p }
  | none => reminder

/-- `if let completed = payload.completed { reminder.isCompleted = completed;
reminder.completionDate = completed ? Date() : nil }`. -/
def applyCompletedOpt (env : Env) (completed? : Option Bool) (reminder : EKReminder) :
    EKReminder :=
  match completed? with
  | some completed =>
    { reminder with
      isCompleted := completed
      completionDate := if completed then some env.now else none }
  | none => reminder

/-- The field-assignment block of `operationCreateReminder`
(Swift lines 372-395): sequentially applies each supplied payload field
to the fresh reminder. -/
def buildCreatedReminder (env : Env) (payload : CreateReminderPayload)
    (calendar : EKCalendar) : Except String EKReminder := do
  let reminder := { freshReminder env calendar with title := payload.name }
  let reminder := applyBodyOpt payload.body reminder
  let reminder ← applyDueOpt env payload.dueDate reminder
  let reminder ← applyAllDayOpt env payload.allDayDueDate reminder
  let reminder ← applyRemindOpt env payload.remindMeDate reminder
  pure (applyPriorityOpt payload.priority reminder)

/-- `operationCreateReminder` (Swift lines 360-399); the returned store is
the saved state (`store.save(reminder, commit: true)` appends the new
reminder). -/
def operationCreateReminder (env : Env) (store : EKEventStore)
    (payload : CreateReminderPayload) : Except String (EKEventStore × CreateIdResult) := do
  let calendars := allReminderCalendars store
  match calendarByName payload.listName calendars with
  | none => .error ("List \x27" ++ payload.listName ++ "\x27 not found")
  | some calendar => do
    if trimString payload.name = "" then
      .error "Reminder name cannot be empty"
    else do
      let reminder ← buildCreatedReminder env payload calendar
      .ok ({ store with reminders := store.reminders ++ [reminder] },
           ⟨reminder.calendarItemIdentifier⟩)

/-- `locateReminderByName` (Swift lines 401-413): first reminder of the
list, in fetch (store) order, whose title equals the requested name. -/
def locateReminderByName (store : EKEventStore) (listName reminderName : String) :
    Except String EKReminder := do
  let calendars := allReminderCalendars store
  match calendarByName listName calendars with
  | none => .error ("List \x27" ++ listName ++ "\x27 not found")
  | some calendar =>
    match (fetchReminders store (some [calendar])).find?
        (fun r => r.title == reminderName) with
    | none =>
      .error ("Reminder \x27" ++ reminderName ++ "\x27 not found in list \x27" ++
        listName ++ "\x27")
    | some reminder => .ok reminder

/-- The field-assignment block of `operationUpdateReminder`
(Swift lines 428-458): sequentially applies each supplied payload field to
the located reminder. -/
def applyReminderUpdate (env : Env) (payload : UpdateReminderPayload)
    (reminder : EKReminder) : Except String EKReminder := do
  let reminder := applyNewNameOpt payload.newName reminder
  let reminder := applyBodyOpt payload.body reminder
  let reminder ← applyDueOpt env payload.dueDate reminder
  let reminder ← applyAllDayOpt env payload.allDayDueDate reminder
  let reminder ← applyRemindOpt env payload.remindMeDate reminder
  let reminder := applyPriorityOpt payload.priority reminder
  pure (applyCompletedOpt env payload.completed reminder)

/-- Replace the first element satisfying `p` by `a`. -/
def replaceFirst (p : α → Bool) (a : α) : List α → List α
  | [] => []
  | x :: xs => if p x then a :: xs else x :: replaceFirst p a xs

/-- Remove the first element satisfying `p`. -/
def removeFirst (p : α → Bool) : List α → List α
  | [] => []
  | x :: xs => if p x then xs else x :: removeFirst p xs

/-- `operationUpdateReminder` (Swift lines 415-462): reject a no-op
request, locate the reminder, apply the updates, save. -/
def operationUpdateReminder (env : Env) (store : EKEventStore)
    (payload : UpdateReminderPayload) : Except String (EKEventStore × EmptyResult) := do
  if payload.newName = none ∧ payload.body = none ∧ payload.dueDate = none ∧
      payload.allDayDueDate = none ∧ payload.remindMeDate = none ∧
      payload.priority = none ∧ payload.completed = none then
    .error "No updates provided"
  else do
    let reminder ← locateReminderByName store payload.listName payload.reminderName
    let updated ← applyReminderUpdate env payload reminder
    .ok ({ store with
            reminders := replaceFirst (fun x => decide (x = reminder)) updated
              store.reminders },
         ⟨⟩)

/-- `operationDeleteReminder` (Swift lines 464-468). -/
def operationDeleteReminder (store : EKEventStore)
    (payload : DeleteReminderPayload) : Except String (EKEventStore × EmptyResult) := do
  let reminder ← locateReminderByName store payload.listName payload.reminderName
  .ok ({ store with
          reminders := removeFirst (fun x => decide (x = reminder)) store.reminders },
       ⟨⟩)

/-- The gateway invocation of `operationUpdateReminder` as a state
transition: a thrown error leaves the native store untouched (nothing is
saved before the throw). -/
def runUpdateReminder (env : Env) (store : EKEventStore)
    (payload : UpdateReminderPayload) : EKEventStore × Except String EmptyResult :=
  match operationUpdateReminder env store payload with
  | .ok (store1, r) => (store1, .ok r)
  | .error e => (store, .error e)

end Gateway

/-! ### Order theory of the sort comparator -/

/-- Lexicographic composition: compare the integer first components, then
fall back to `g` on the second components.  The comparator of
`sortReminders` is three nested instances of this shape. -/
def intLex (g : β → β → Bool) (x y : Int × β) : Bool :=
  if x.1 ≠ y.1 then decide (x.1 < y.1) else g x.2 y.2

/-- Innermost level of the sort key comparison: negated effective
modification date, then lower-cased name. -/
def key3LT : Int × List Char → Int × List Char → Bool :=
  intLex charListLt

/-- Middle level: due timestamp, then `key3LT`. -/
def key2LT : Int × Int × List Char → Int × Int × List Char → Bool :=
  intLex key3LT

/-- The lexicographic sort key comparison underlying the comparator:
due-date presence, due timestamp, negated effective modification date,
lower-cased name. -/
def keyLT : Int × Int × Int × List Char → Int × Int × Int × List Char → Bool :=
  intLex key2LT

/-- The sort key of a reminder under the comparator of `sortReminders`. -/
def sortKey (env : Env) (r : EKReminder) : Int × Int × Int × List Char :=
  match Gateway.dueDate env r with
  | some d => (0, d, - Gateway.effectiveModification env r, lowerData r.title)
  | none => (1, 0, - Gateway.effectiveModification env r, lowerData r.title)


/-! ### TypeScript service layer (`src/services/eventkit.ts`) -/

/-- `HelperReminder` interface in the TS source: the gateway record as
decoded from JSON on the TS side (`priority` may be absent on the wire,
guarded by `?? 0`). -/
structure HelperReminder where
  id : String
  name : String
  body : Option String
  completed : Bool
  completionDate : Option String
  dueDate : Option String
  allDayDueDate : Option String
  remindMeDate : Option String
  priority : Option Int
  creationDate : Option String
  modificationDate : Option String
  listName : String
deriving Repr, DecidableEq

/-- Canonical `Reminder` model (`src/types.ts`). -/
structure Reminder where
  id : String
  name : String
  body : Option String
  completed : Bool
  completionDate : Option Int
  dueDate : Option Int
  allDayDueDate : Option Int
  remindMeDate : Option Int
  priority : Int
  creationDate : Int
  modificationDate : Int
  listName : String
deriving Repr, DecidableEq

namespace Svc

/-- `parseDate` (TS lines 48-53): absent or empty input, or an unparseable
date string, yields `none` (`!value` is true for `undefined` and `""`). -/
def parseDate (env : Env) (value : Option String) : Option Int :=
  match value with
  | none => none
  | some s => if s = "" then none else env.jsDateParse s

/-- `mapReminder` (TS lines 55-70): normalize a gateway record into the
canonical model. -/
def mapReminder (env : Env) (reminder : HelperReminder) : Reminder :=
  { id := reminder.id
    name := reminder.name
    body :=
      match reminder.body with
      | some b => if b = "" then none else some b
      | none => none
    completed := reminder.completed
    completionDate := parseDate env reminder.completionDate
    dueDate := parseDate env reminder.dueDate
    allDayDueDate := parseDate env reminder.allDayDueDate
    remindMeDate := parseDate env reminder.remindMeDate
    priority := reminder.priority.getD 0
    creationDate := (parseDate env reminder.creationDate).getD env.now
    modificationDate := (parseDate env reminder.modificationDate).getD env.now
    listName := reminder.listName }

/-- Projections of the JavaScript value produced by `JSON.parse` on a
gateway response, as the codec consumes it: the truthiness of `.ok`, the
`.error` field coerced to a string (`""` when absent, matching the
falsiness test `parsed.error ||`), and `.result`. -/
structure JsEnvelope (T : Type) where
  okTruthy : Bool
  errorField : String
  result : T
deriving Repr, DecidableEq

/-- `parseEnvelope` (TS lines 72-90).  `jsParse` models `JSON.parse`
(`none` = the string is not valid JSON and `JSON.parse` throws). -/
def parseEnvelope {T : Type} (jsParse : String → Option (JsEnvelope T))
    (stdout op : String) : Except String T :=
  let raw := trimString stdout
  if raw = "" then
    .error ("EventKit helper returned empty response for operation \x27" ++ op ++ "\x27")
  else
    match jsParse raw with
    | none =>
      .error ("Failed to parse EventKit helper response for \x27" ++ op ++ "\x27: " ++ raw)
    | some parsed =>
      if parsed.okTruthy = false then
        .error (if parsed.errorField = "" then
          "EventKit helper failed for operation \x27" ++ op ++ "\x27"
        else parsed.errorField)
      else
        .ok parsed.result

/-- Outcome of `execFileAsync` on the helper binary: normal exit with a
stdout, or rejection (non-zero exit) carrying captured `stdout`/`stderr`
and an error `message`. -/
inductive ExecResult where
  | success (stdout : String)
  | failure (stdout : Option String) (stderr : Option String) (message : String)
deriving Repr, DecidableEq

/-- `runHelper` (TS lines 127-152), after the helper is built: parse the
envelope from stdout; on process failure, still parse any printed stdout
first and fall back to a generic process-failure message otherwise. -/
def runHelper {T : Type} (jsParse : String → Option (JsEnvelope T))
    (exec : ExecResult) (op : String) : Except String T :=
  match exec with
  | .success stdout => parseEnvelope jsParse stdout op
  | .failure stdoutOpt stderrOpt message =>
    let fallback : Except String T :=
      let details :=
        match stderrOpt with
        | some e => if trimString e = "" then message else trimString e
        | none => message
      .error ("EventKit operation \x27" ++ op ++ "\x27 failed: " ++ details)
    match stdoutOpt with
    | some out => if trimString out ≠ "" then parseEnvelope jsParse out op else fallback
    | none => fallback

end Svc

/-! ### Tool layer (`src/schemas/index.ts`, `src/tools/lists.ts`) -/

/-- `MAX_LIMIT` (`src/constants.ts`). -/
def MAX_LIMIT : Int := 200

/-- `DEFAULT_LIMIT` (`src/constants.ts`). -/
def DEFAULT_LIMIT : Int := 50

/-- The raw `reminders_list` request before Zod validation. -/
structure RawListParams where
  listName : Option String
  completed : Option Bool
  limit : Option Int
  offset : Option Int
deriving Repr, DecidableEq

/-- The `reminders_list` request after Zod validation. -/
structure ValidatedListParams where
  listName : Option String
  completed : Option Bool
  limit : Int
  offset : Int
deriving Repr, DecidableEq

/-- `ListRemindersSchema` (`src/schemas/index.ts` lines 47-68): `limit` is
an integer in `[1, MAX_LIMIT]` defaulting to `DEFAULT_LIMIT`, `offset` a
nonnegative integer defaulting to 0. -/
def validateListRequest (p : RawListParams) : Option ValidatedListParams :=
  let limit := p.limit.getD DEFAULT_LIMIT
  let offset := p.offset.getD 0
  if 1 ≤ limit ∧ limit ≤ MAX_LIMIT ∧ 0 ≤ offset then
    some ⟨p.listName, p.completed, limit, offset⟩
  else none

/-- The JSON round trip of a gateway `ReminderRecord` to the TS
`HelperReminder`: `Encodable` emits every non-nil field, so the fields
carry over verbatim and `priority` is always present. -/
def recordToHelper (rec : ReminderRecord) : HelperReminder :=
  { id := rec.id
    name := rec.name
    body := rec.body
    completed := rec.completed
    completionDate := rec.completionDate
    dueDate := rec.dueDate
    allDayDueDate := rec.allDayDueDate
    remindMeDate := rec.remindMeDate
    priority := some rec.priority
    creationDate := rec.creationDate
    modificationDate := rec.modificationDate
    listName := rec.listName }

/-- The structured output of the `reminders_list` handler. -/
structure ListToolOutput where
  total : Int
  count : Nat
  offset : Int
  reminders : List Reminder
  hasMore : Bool
  nextOffset : Option Int
deriving Repr, DecidableEq

/-- The `reminders_list` handler (`src/tools/lists.ts` lines 366-416) with
the process boundary collapsed: `getPaginatedReminders` forwards the
validated parameters to `operationListReminders` and maps the records
through `Svc.mapReminder`; the handler computes `hasMore` and
`nextOffset`. -/
def remindersListHandler (env : Env) (store : EKEventStore)
    (p : ValidatedListParams) : Except String ListToolOutput := do
  let res ← Gateway.operationListReminders env store
    ⟨p.listName, p.completed, some p.limit, some p.offset⟩
  let paginated := res.reminders.map (fun rec => Svc.mapReminder env (recordToHelper rec))
  let hasMore := decide (p.offset + p.limit < res.total)
  .ok { total := res.total
        count := paginated.length
        offset := p.offset
        reminders := paginated
        hasMore := hasMore
        nextOffset := if hasMore then some (p.offset + p.limit) else none }

/-! ### Concrete fixtures used by witnesses and counterexamples -/

/-- A concrete environment instance for evaluating the definitions. -/
def envW : Env :=
  { isoFracParse := fun s => if s = "2024-03-05T10:00:00Z" then some 100 else none
    isoNoFracParse := fun s => if s = "2024-03-10T10:00:00" then some 200 else none
    allDayParse := fun s => if s = "2024-12-31" then some 300 else none
    components6 := fun t => ⟨2024, 12, 31, 1, 2, t⟩
    dateFromComponents := fun c => c.year.getD 0
    isoFormat := fun _ => "1970-01-01T00:00:00.000Z"
    now := 777
    distantPast := -1000000
    freshId := "fresh-id"
    jsDateParse := fun s => if s = "2024-03-05T10:00:00.000Z" then some 100 else none }

/-- A concrete calendar. -/
def calW : EKCalendar := ⟨"cal-1", "Work"⟩

/-- Concrete date components carrying a time of day. -/
def dcW : DateComponents := ⟨some 2024, some 3, some 5, some 10, none, none⟩

/-- A concrete reminder with a due date. -/
def remA : EKReminder :=
  ⟨"id-a", "Milk", none, false, none, some dcW, none, 0, some 10, some 20, calW⟩

/-- A concrete reminder without a due date. -/
def remB : EKReminder :=
  ⟨"id-b", "Bread", none, false, none, none, none, 0, some 10, none, calW⟩

/-- A concrete store holding one list and two reminders. -/
def storeW : EKEventStore := ⟨[calW], [remA, remB]⟩

/-- An update payload with every optional field absent. -/
def pU4 : UpdateReminderPayload :=
  ⟨"Work", "Milk", none, none, none, none, none, none, none⟩

/-- A create payload supplying both a timed and an all-day due date. -/
def pC5 : CreateReminderPayload :=
  ⟨"Milk", "Work", none, some "2024-03-05T10:00:00Z", some "2024-12-31", none, none⟩

/-- The reminder `operationCreateReminder` builds from `pC5` under `envW`. -/
def rbW : EKReminder :=
  ⟨"fresh-id", "Milk", none, false, none,
    some ⟨some 2024, some 12, some 31, none, none, none⟩, none, 0, none, none, calW⟩

/-- The store after creating `pC5` in `storeW`. -/
def storeC5out : EKEventStore := ⟨[calW], [remA, remB, rbW]⟩

/-- An update payload supplying only a notification date. -/
def pU9 : UpdateReminderPayload :=
  ⟨"Work", "Milk", none, none, none, none, some "2024-03-05T10:00:00Z", none, none⟩

/-- An update payload supplying only `completed = true`. -/
def pU10 : UpdateReminderPayload :=
  ⟨"Work", "Milk", none, none, none, none, none, none, some true⟩

/-- `remA` marked completed at time 777. -/
def remA10 : EKReminder := { remA with isCompleted := true, completionDate := some 777 }

/-- A wire record with an unparseable completion date and no creation
date. -/
def hrecW : HelperReminder :=
  ⟨"id", "Milk", none, false, some "garbage", none, none, none, none, none, none, "Work"⟩

/-- A calendar for the name-collision scenario. -/
def cal6 : EKCalendar := ⟨"cal-6", "L"⟩

/-- First reminder named "n" in store order: no due date. -/
def rem6a : EKReminder :=
  ⟨"id-6a", "n", none, false, none, none, none, 0, none, none, cal6⟩

/-- Second reminder named "n" in store order: carries a due date, so the
canonical sort places it first. -/
def rem6b : EKReminder :=
  ⟨"id-6b", "n", none, false, none, some dcW, none, 0, none, none, cal6⟩

/-- A store where fetch order and canonical sort order disagree for the
two reminders named "n". -/
def store6 : EKEventStore := ⟨[cal6], [rem6a, rem6b]⟩

/-- The predicate "msg mentions op", used to state the error-message
claims. -/
def mentionsOp (msg op : String) : Prop := ∃ x y, msg = x ++ op ++ y

/-- A model of `JSON.parse` that yields an envelope with discriminant
false and an empty error message for every input. -/
def jsParseW : String → Option (Svc.JsEnvelope Int) := fun _ => some ⟨false, "", 0⟩

/-- A raw list request with no pagination parameters supplied. -/
def raw0 : RawListParams := ⟨some "Work", none, none, none⟩

/-- The validated form of `raw0`: the defaults limit 50, offset 0. -/
def p50 : ValidatedListParams := ⟨some "Work", none, 50, 0⟩

/-! ### Order theory of the sort comparator: proofs -/

theorem charListLt_irrefl : ∀ l, charListLt l l = false
  | [] => rfl
  | a :: as => by
    simp only [charListLt, lt_irrefl a, if_false, ite_self]
    exact charListLt_irrefl as

theorem charListLt_cons_iff {a b : Char} {as bs : List Char} :
    charListLt (a :: as) (b :: bs) = true ↔
      (a < b ∨ (a = b ∧ charListLt as bs = true)) := by
  simp only [charListLt]
  split_ifs with h1 h2
  · simp [h1]
  · simp [h1, ne_of_gt h2]
  · have hab : a = b := le_antisymm (not_lt.mp h2) (not_lt.mp h1)
    simp [h1, hab]

theorem charListLt_asymm : ∀ {x y : List Char},
    charListLt x y = true → charListLt y x = false
  | [], [], h => by simp [charListLt] at h
  | [], _ :: _, _ => rfl
  | _ :: _, [], h => by simp [charListLt] at h
  | a :: as, b :: bs, h => by
    rw [← Bool.not_eq_true, charListLt_cons_iff]
    rw [charListLt_cons_iff] at h
    rintro (h' | ⟨rfl, h'⟩)
    · rcases h with h | ⟨rfl, h⟩
      · exact absurd h' (lt_asymm h)
      · exact absurd h' (lt_irrefl _)
    · rcases h with h | ⟨-, h⟩
      · exact absurd h (lt_irrefl _)
      · have hf := charListLt_asymm h
        rw [hf] at h'
        cases h'

theorem charListLt_trans : ∀ {x y z : List Char},
    charListLt x y = true → charListLt y z = true → charListLt x z = true
  | [], [], _, h, _ => by simp [charListLt] at h
  | [], _ :: _, [], _, h => by simp [charListLt] at h
  | [], _ :: _, _ :: _, _, _ => rfl
  | _ :: _, [], _, h, _ => by simp [charListLt] at h
  | _ :: _, _ :: _, [], _, h => by simp [charListLt] at h
  | a :: as, b :: bs, c :: cs, h1, h2 => by
    rw [charListLt_cons_iff] at h1 h2 ⊢
    rcases h1 with h1 | ⟨rfl, h1⟩
    · rcases h2 with h2 | ⟨rfl, h2⟩
      · exact Or.inl (lt_trans h1 h2)
      · exact Or.inl h1
    · rcases h2 with h2 | ⟨rfl, h2⟩
      · exact Or.inl h2
      · exact Or.inr ⟨rfl, charListLt_trans h1 h2⟩

theorem charListLt_eq_of_incomp : ∀ {x y : List Char},
    charListLt x y = false → charListLt y x = false → x = y
  | [], [], _, _ => rfl
  | [], _ :: _, h, _ => by simp [charListLt] at h
  | _ :: _, [], _, h => by simp [charListLt] at h
  | a :: as, b :: bs, h1, h2 => by
    rw [← Bool.not_eq_true, charListLt_cons_iff] at h1 h2
    push_neg at h1 h2
    have hab : a = b := le_antisymm h2.1 h1.1
    subst hab
    exact congrArg (a :: ·)
      (charListLt_eq_of_incomp (by simpa using h1.2 rfl) (by simpa using h2.2 rfl))

theorem intLex_irrefl (g : β → β → Bool) (hg : ∀ u, g u u = false) (x : Int × β) :
    intLex g x x = false := by
  obtain ⟨a, u⟩ := x
  unfold intLex
  rw [if_neg (by omega)]
  exact hg u

theorem intLex_asymm (g : β → β → Bool)
    (hg : ∀ {u v : β}, g u v = true → g v u = false) :
    ∀ {x y : Int × β}, intLex g x y = true → intLex g y x = false := by
  rintro ⟨a, u⟩ ⟨b, v⟩ h
  unfold intLex at h ⊢
  by_cases hab : a = b
  · subst hab
    rw [if_neg (by omega)] at h ⊢
    exact hg h
  · rw [if_pos (by omega)] at h ⊢
    simp only [decide_eq_true_eq] at h
    exact decide_eq_false (by omega)

theorem intLex_trans (g : β → β → Bool)
    (hg : ∀ {u v w : β}, g u v = true → g v w = true → g u w = true) :
    ∀ {x y z : Int × β},
      intLex g x y = true → intLex g y z = true → intLex g x z = true := by
  rintro ⟨a, u⟩ ⟨b, v⟩ ⟨c, w⟩ h1 h2
  unfold intLex at h1 h2 ⊢
  by_cases hab : a = b <;> by_cases hbc : b = c
  · subst hab; subst hbc
    rw [if_neg (by omega)] at h1 h2 ⊢
    exact hg h1 h2
  · subst hab
    rw [if_neg (by omega)] at h1
    rw [if_pos (by omega)] at h2 ⊢
    exact h2
  · subst hbc
    rw [if_neg (by omega)] at h2
    rw [if_pos (by omega)] at h1 ⊢
    exact h1
  · rw [if_pos (by omega)] at h1 h2
    simp only [decide_eq_true_eq] at h1 h2
    by_cases hac : a = c
    · omega
    · rw [if_pos (by omega)]
      exact decide_eq_true (by omega)

theorem intLex_eq_of_incomp (g : β → β → Bool)
    (hg : ∀ {u v : β}, g u v = false → g v u = false → u = v) :
    ∀ {x y : Int × β}, intLex g x y = false → intLex g y x = false → x = y := by
  rintro ⟨a, u⟩ ⟨b, v⟩ h1 h2
  unfold intLex at h1 h2
  dsimp only at h1 h2
  by_cases hab : a = b
  · subst hab
    rw [if_neg (by omega)] at h1 h2
    rw [hg h1 h2]
  · rw [if_pos (by omega)] at h1 h2
    simp only [decide_eq_false_iff_not, decide_eq_true_eq] at h1 h2
    omega

theorem key3LT_irrefl (x : Int × List Char) : key3LT x x = false :=
  intLex_irrefl charListLt charListLt_irrefl x

theorem key3LT_asymm {x y : Int × List Char} (h : key3LT x y = true) :
    key3LT y x = false :=
  intLex_asymm charListLt (fun h => charListLt_asymm h) h

theorem key3LT_trans {x y z : Int × List Char} (h1 : key3LT x y = true)
    (h2 : key3LT y z = true) : key3LT x z = true :=
  intLex_trans charListLt (fun h h' => charListLt_trans h h') h1 h2

theorem key3LT_eq_of_incomp {x y : Int × List Char} (h1 : key3LT x y = false)
    (h2 : key3LT y x = false) : x = y :=
  intLex_eq_of_incomp charListLt (fun h h' => charListLt_eq_of_incomp h h') h1 h2

theorem key2LT_irrefl (x : Int × Int × List Char) : key2LT x x = false :=
  intLex_irrefl key3LT key3LT_irrefl x

theorem key2LT_asymm {x y : Int × Int × List Char} (h : key2LT x y = true) :
    key2LT y x = false :=
  intLex_asymm key3LT (fun h => key3LT_asymm h) h

theorem key2LT_trans {x y z : Int × Int × List Char} (h1 : key2LT x y = true)
    (h2 : key2LT y z = true) : key2LT x z = true :=
  intLex_trans key3LT (fun h h' => key3LT_trans h h') h1 h2

theorem key2LT_eq_of_incomp {x y : Int × Int × List Char}
    (h1 : key2LT x y = false) (h2 : key2LT y x = false) : x = y :=
  intLex_eq_of_incomp key3LT (fun h h' => key3LT_eq_of_incomp h h') h1 h2

theorem keyLT_irrefl (x : Int × Int × Int × List Char) : keyLT x x = false :=
  intLex_irrefl key2LT key2LT_irrefl x

theorem keyLT_asymm {x y : Int × Int × Int × List Char}
    (h : keyLT x y = true) : keyLT y x = false :=
  intLex_asymm key2LT (fun h => key2LT_asymm h) h

theorem keyLT_trans {x y z : Int × Int × Int × List Char}
    (h1 : keyLT x y = true) (h2 : keyLT y z = true) : keyLT x z = true :=
  intLex_trans key2LT (fun h h' => key2LT_trans h h') h1 h2

theorem keyLT_eq_of_incomp {x y : Int × Int × Int × List Char}
    (h1 : keyLT x y = false) (h2 : keyLT y x = false) : x = y :=
  intLex_eq_of_incomp key2LT (fun h h' => key2LT_eq_of_incomp h h') h1 h2

theorem keyLT_false_iff {x y : Int × Int × Int × List Char} :
    keyLT x y = false ↔ (keyLT y x = true ∨ x = y) := by
  constructor
  · intro h
    cases hyx : keyLT y x with
    | true => exact Or.inl rfl
    | false => exact Or.inr (keyLT_eq_of_incomp h hyx)
  · rintro (h | rfl)
    · exact keyLT_asymm h
    · exact keyLT_irrefl x

theorem keyLT_negtrans {x y z : Int × Int × Int × List Char}
    (h1 : keyLT y x = false) (h2 : keyLT z y = false) : keyLT z x = false := by
  rcases keyLT_false_iff.mp h1 with hxy | rfl
  · rcases keyLT_false_iff.mp h2 with hyz | rfl
    · exact keyLT_asymm (keyLT_trans hxy hyz)
    · exact keyLT_asymm hxy
  · exact h2


theorem tieBreakLT_eq (env : Env) (a b : EKReminder) :
    Gateway.tieBreakLT env a b =
      intLex charListLt
        (- Gateway.effectiveModification env a, lowerData a.title)
        (- Gateway.effectiveModification env b, lowerData b.title) := by
  unfold Gateway.tieBreakLT intLex caseInsensitiveLess
  dsimp only
  by_cases hm :
      Gateway.effectiveModification env a = Gateway.effectiveModification env b
  · rw [if_neg (show ¬(Gateway.effectiveModification env a ≠
        Gateway.effectiveModification env b) by omega),
      if_neg (show ¬(- Gateway.effectiveModification env a ≠
        - Gateway.effectiveModification env b) by omega)]
  · rw [if_pos (show Gateway.effectiveModification env a ≠
        Gateway.effectiveModification env b by omega),
      if_pos (show - Gateway.effectiveModification env a ≠
        - Gateway.effectiveModification env b by omega)]
    exact decide_eq_decide.mpr (by constructor <;> intro <;> omega)

theorem reminderLT_eq_keyLT (env : Env) (a b : EKReminder) :
    Gateway.reminderLT env a b = keyLT (sortKey env a) (sortKey env b) := by
  unfold Gateway.reminderLT sortKey keyLT key2LT key3LT
  rcases hda : Gateway.dueDate env a with _ | l <;>
    rcases hdb : Gateway.dueDate env b with _ | r
  · rw [tieBreakLT_eq env a b]
    simp only [intLex]
    dsimp only
    rw [if_neg (show ¬((1 : Int) ≠ 1) by omega),
      if_neg (show ¬((0 : Int) ≠ 0) by omega)]
  · simp only [intLex]
    dsimp only
    rw [if_pos (show (1 : Int) ≠ 0 by omega)]
    decide
  · simp only [intLex]
    dsimp only
    rw [if_pos (show (0 : Int) ≠ 1 by omega)]
    decide
  · rw [tieBreakLT_eq env a b]
    simp only [intLex]
    dsimp only
    rw [if_neg (show ¬((0 : Int) ≠ 0) by omega)]

theorem reminderLT_asymm (env : Env) {a b : EKReminder}
    (h : Gateway.reminderLT env a b = true) : Gateway.reminderLT env b a = false := by
  rw [reminderLT_eq_keyLT] at h ⊢
  exact keyLT_asymm h

theorem reminderLT_trans (env : Env) {a b c : EKReminder}
    (h1 : Gateway.reminderLT env a b = true) (h2 : Gateway.reminderLT env b c = true) :
    Gateway.reminderLT env a c = true := by
  rw [reminderLT_eq_keyLT] at h1 h2 ⊢
  exact keyLT_trans h1 h2

theorem sortReminders_sorted (env : Env) (l : List EKReminder) :
    List.Sorted (fun a b => Gateway.reminderLT env b a = false)
      (Gateway.sortReminders env l) := by
  letI : IsTotal EKReminder (fun a b => Gateway.reminderLT env b a = false) := by
    constructor
    intro a b
    cases h : Gateway.reminderLT env b a with
    | false => exact Or.inl rfl
    | true => exact Or.inr (reminderLT_asymm env h)
  letI : IsTrans EKReminder (fun a b => Gateway.reminderLT env b a = false) := by
    constructor
    intro a b c h1 h2
    rw [reminderLT_eq_keyLT] at h1 h2 ⊢
    exact keyLT_negtrans h1 h2
  exact List.sorted_insertionSort _ l

theorem sortReminders_length (env : Env) (l : List EKReminder) :
    (Gateway.sortReminders env l).length = l.length :=
  List.length_insertionSort _ l

theorem reminderLT_of_dueEq (env : Env) {a b : EKReminder}
    (hd : Gateway.dueDate env a = Gateway.dueDate env b) :
    Gateway.reminderLT env a b = Gateway.tieBreakLT env a b := by
  unfold Gateway.reminderLT
  rcases hda : Gateway.dueDate env a with _ | v
  · rw [hda] at hd
    rw [← hd]
  · rw [hda] at hd
    rw [← hd]
    dsimp only
    rw [if_neg (show ¬(v ≠ v) by omega)]

theorem tieBreakLT_of_gt (env : Env) {a b : EKReminder}
    (hm : Gateway.effectiveModification env a > Gateway.effectiveModification env b) :
    Gateway.tieBreakLT env a b = true ∧ Gateway.tieBreakLT env b a = false := by
  constructor
  · unfold Gateway.tieBreakLT
    rw [if_pos (show Gateway.effectiveModification env a ≠
        Gateway.effectiveModification env b by omega)]
    exact decide_eq_true hm
  · unfold Gateway.tieBreakLT
    rw [if_pos (show Gateway.effectiveModification env b ≠
        Gateway.effectiveModification env a by omega)]
    exact decide_eq_false (by omega)

theorem tieBreakLT_of_modEq (env : Env) {a b : EKReminder}
    (hm : Gateway.effectiveModification env a = Gateway.effectiveModification env b) :
    Gateway.tieBreakLT env a b = caseInsensitiveLess a.title b.title := by
  unfold Gateway.tieBreakLT
  rw [if_neg (show ¬(Gateway.effectiveModification env a ≠
      Gateway.effectiveModification env b) by omega)]

/-! ### Claims -/

/-- C1: the reminder sort comparator is a total order on reminders (for
any two, exactly one of `A < B`, `B < A`, or a deterministic tie holds,
and `<` is transitive) and orders exactly as specified: due-dated before
undated; ascending due timestamp; ties by descending last-modified
timestamp (falling back to creation, then `Date.distantPast`);
remaining ties by case-insensitive lexicographic name order; and sorting
an already-sorted sequence (the output of the sort) leaves it unchanged. -/
theorem claim_C1 (env : Env) :
    (∀ a b : EKReminder,
      (Gateway.reminderLT env a b = true ∧ Gateway.reminderLT env b a = false ∧
        ¬ sortKey env a = sortKey env b) ∨
      (Gateway.reminderLT env a b = false ∧ Gateway.reminderLT env b a = true ∧
        ¬ sortKey env a = sortKey env b) ∨
      (Gateway.reminderLT env a b = false ∧ Gateway.reminderLT env b a = false ∧
        sortKey env a = sortKey env b)) ∧
    (∀ a b c : EKReminder, Gateway.reminderLT env a b = true →
      Gateway.reminderLT env b c = true → Gateway.reminderLT env a c = true) ∧
    (∀ a b : EKReminder, Gateway.dueDate env a ≠ none → Gateway.dueDate env b = none →
      Gateway.reminderLT env a b = true ∧ Gateway.reminderLT env b a = false) ∧
    (∀ (a b : EKReminder) (l r : Int), Gateway.dueDate env a = some l →
      Gateway.dueDate env b = some r → l < r →
      Gateway.reminderLT env a b = true ∧ Gateway.reminderLT env b a = false) ∧
    (∀ a b : EKReminder, Gateway.dueDate env a = Gateway.dueDate env b →
      Gateway.effectiveModification env a > Gateway.effectiveModification env b →
      Gateway.reminderLT env a b = true ∧ Gateway.reminderLT env b a = false) ∧
    (∀ a b : EKReminder, Gateway.dueDate env a = Gateway.dueDate env b →
      Gateway.effectiveModification env a = Gateway.effectiveModification env b →
      Gateway.reminderLT env a b = caseInsensitiveLess a.title b.title) ∧
    (∀ l : List EKReminder,
      Gateway.sortReminders env (Gateway.sortReminders env l) =
        Gateway.sortReminders env l) := by
  refine ⟨?_, ?_, ?_, ?_, ?_, ?_, ?_⟩
  · intro a b
    rw [reminderLT_eq_keyLT env a b, reminderLT_eq_keyLT env b a]
    cases hxy : keyLT (sortKey env a) (sortKey env b) with
    | true =>
      left
      refine ⟨rfl, keyLT_asymm hxy, fun he => ?_⟩
      rw [he, keyLT_irrefl] at hxy
      cases hxy
    | false =>
      cases hyx : keyLT (sortKey env b) (sortKey env a) with
      | true =>
        right; left
        refine ⟨rfl, rfl, fun he => ?_⟩
        rw [he, keyLT_irrefl] at hyx
        cases hyx
      | false =>
        right; right
        exact ⟨rfl, rfl, keyLT_eq_of_incomp hxy hyx⟩
  · intro a b c h1 h2
    exact reminderLT_trans env h1 h2
  · intro a b h1 h2
    obtain ⟨l, hda⟩ := Option.ne_none_iff_exists'.mp h1
    constructor
    · unfold Gateway.reminderLT
      rw [hda, h2]
    · unfold Gateway.reminderLT
      rw [hda, h2]
  · intro a b l r hda hdb hlt
    constructor
    · unfold Gateway.reminderLT
      rw [hda, hdb]
      dsimp only
      rw [if_pos (show l ≠ r by omega)]
      exact decide_eq_true hlt
    · unfold Gateway.reminderLT
      rw [hda, hdb]
      dsimp only
      rw [if_pos (show r ≠ l by omega)]
      exact decide_eq_false (by omega)
  · intro a b hd hm
    rw [reminderLT_of_dueEq env hd, reminderLT_of_dueEq env hd.symm]
    exact tieBreakLT_of_gt env hm
  · intro a b hd hm
    rw [reminderLT_of_dueEq env hd]
    exact tieBreakLT_of_modEq env hm
  · intro l
    exact List.Sorted.insertionSort_eq (sortReminders_sorted env l)

/-- Witness for C1 at a concrete input: the due-dated reminder `remA`
sorts strictly before the undated `remB`. -/
theorem claim_C1_witness :
    Gateway.reminderLT envW remA remB = true ∧
      Gateway.reminderLT envW remB remA = false :=
  (claim_C1 envW).2.2.1 remA remB (by decide) (by decide)

/-! ### Frame and decomposition lemmas for the field-assignment steps -/

theorem applyBodyOpt_none (r : EKReminder) : Gateway.applyBodyOpt none r = r := rfl

theorem applyNewNameOpt_none (r : EKReminder) : Gateway.applyNewNameOpt none r = r := rfl

theorem applyDueOpt_none (env : Env) (r : EKReminder) :
    Gateway.applyDueOpt env none r = .ok r := rfl

theorem applyAllDayOpt_none (env : Env) (r : EKReminder) :
    Gateway.applyAllDayOpt env none r = .ok r := rfl

theorem applyRemindOpt_none (env : Env) (r : EKReminder) :
    Gateway.applyRemindOpt env none r = .ok r := rfl

theorem applyPriorityOpt_none (r : EKReminder) : Gateway.applyPriorityOpt none r = r := rfl

theorem applyCompletedOpt_none (env : Env) (r : EKReminder) :
    Gateway.applyCompletedOpt env none r = r := rfl

theorem applyDueOpt_frame {env : Env} {d? : Option String} {r r' : EKReminder}
    (h : Gateway.applyDueOpt env d? r = .ok r') :
    r'.title = r.title ∧ r'.notes = r.notes ∧ r'.alarms = r.alarms ∧
      r'.priority = r.priority ∧ r'.isCompleted = r.isCompleted ∧
      r'.completionDate = r.completionDate := by
  rcases d? with _ | d
  · simp only [Gateway.applyDueOpt, Except.ok.injEq] at h
    subst h
    exact ⟨rfl, rfl, rfl, rfl, rfl, rfl⟩
  · simp only [Gateway.applyDueOpt] at h
    rcases hc : Gateway.dateComponentsFromISO env d with e | c
    · rw [hc] at h
      simp at h
    · rw [hc] at h
      simp only [Except.ok.injEq] at h
      subst h
      exact ⟨rfl, rfl, rfl, rfl, rfl, rfl⟩

theorem applyAllDayOpt_frame {env : Env} {d? : Option String} {r r' : EKReminder}
    (h : Gateway.applyAllDayOpt env d? r = .ok r') :
    r'.title = r.title ∧ r'.notes = r.notes ∧ r'.alarms = r.alarms ∧
      r'.priority = r.priority ∧ r'.isCompleted = r.isCompleted ∧
      r'.completionDate = r.completionDate := by
  rcases d? with _ | d
  · simp only [Gateway.applyAllDayOpt, Except.ok.injEq] at h
    subst h
    exact ⟨rfl, rfl, rfl, rfl, rfl, rfl⟩
  · simp only [Gateway.applyAllDayOpt] at h
    rcases hc : Gateway.dateComponentsFromAllDay env d with e | c
    · rw [hc] at h
      simp at h
    · rw [hc] at h
      simp only [Except.ok.injEq] at h
      subst h
      exact ⟨rfl, rfl, rfl, rfl, rfl, rfl⟩

theorem applyRemindOpt_frame {env : Env} {d? : Option String} {r r' : EKReminder}
    (h : Gateway.applyRemindOpt env d? r = .ok r') :
    r'.title = r.title ∧ r'.notes = r.notes ∧
      r'.dueDateComponents = r.dueDateComponents ∧
      r'.priority = r.priority ∧ r'.isCompleted = r.isCompleted ∧
      r'.completionDate = r.completionDate := by
  rcases d? with _ | d
  · simp only [Gateway.applyRemindOpt, Except.ok.injEq] at h
    subst h
    exact ⟨rfl, rfl, rfl, rfl, rfl, rfl⟩
  · simp only [Gateway.applyRemindOpt] at h
    rcases hc : Gateway.parseISODate env d with _ | t
    · rw [hc] at h
      simp at h
    · rw [hc] at h
      simp only [Except.ok.injEq] at h
      subst h
      exact ⟨rfl, rfl, rfl, rfl, rfl, rfl⟩

theorem applyBodyOpt_frame (b? : Option String) (r : EKReminder) :
    (Gateway.applyBodyOpt b? r).title = r.title ∧
      (Gateway.applyBodyOpt b? r).dueDateComponents = r.dueDateComponents ∧
      (Gateway.applyBodyOpt b? r).alarms = r.alarms ∧
      (Gateway.applyBodyOpt b? r).priority = r.priority ∧
      (Gateway.applyBodyOpt b? r).isCompleted = r.isCompleted ∧
      (Gateway.applyBodyOpt b? r).completionDate = r.completionDate := by
  rcases b? with _ | b <;> exact ⟨rfl, rfl, rfl, rfl, rfl, rfl⟩

theorem applyNewNameOpt_frame (n? : Option String) (r : EKReminder) :
    (Gateway.applyNewNameOpt n? r).notes = r.notes ∧
      (Gateway.applyNewNameOpt n? r).dueDateComponents = r.dueDateComponents ∧
      (Gateway.applyNewNameOpt n? r).alarms = r.alarms ∧
      (Gateway.applyNewNameOpt n? r).priority = r.priority ∧
      (Gateway.applyNewNameOpt n? r).isCompleted = r.isCompleted ∧
      (Gateway.applyNewNameOpt n? r).completionDate = r.completionDate := by
  rcases n? with _ | n <;> exact ⟨rfl, rfl, rfl, rfl, rfl, rfl⟩

theorem applyPriorityOpt_frame (p? : Option Int) (r : EKReminder) :
    (Gateway.applyPriorityOpt p? r).title = r.title ∧
      (Gateway.applyPriorityOpt p? r).notes = r.notes ∧
      (Gateway.applyPriorityOpt p? r).dueDateComponents = r.dueDateComponents ∧
      (Gateway.applyPriorityOpt p? r).alarms = r.alarms ∧
      (Gateway.applyPriorityOpt p? r).isCompleted = r.isCompleted ∧
      (Gateway.applyPriorityOpt p? r).completionDate = r.completionDate := by
  rcases p? with _ | p <;> exact ⟨rfl, rfl, rfl, rfl, rfl, rfl⟩

theorem applyCompletedOpt_frame (env : Env) (c? : Option Bool) (r : EKReminder) :
    (Gateway.applyCompletedOpt env c? r).title = r.title ∧
      (Gateway.applyCompletedOpt env c? r).notes = r.notes ∧
      (Gateway.applyCompletedOpt env c? r).dueDateComponents = r.dueDateComponents ∧
      (Gateway.applyCompletedOpt env c? r).alarms = r.alarms ∧
      (Gateway.applyCompletedOpt env c? r).priority = r.priority := by
  rcases c? with _ | c <;> exact ⟨rfl, rfl, rfl, rfl, rfl⟩

theorem applyReminderUpdate_decomp {env : Env} {payload : UpdateReminderPayload}
    {r r' : EKReminder} (h : Gateway.applyReminderUpdate env payload r = .ok r') :
    ∃ r3 r4 r5 : EKReminder,
      Gateway.applyDueOpt env payload.dueDate
        (Gateway.applyBodyOpt payload.body
          (Gateway.applyNewNameOpt payload.newName r)) = .ok r3 ∧
      Gateway.applyAllDayOpt env payload.allDayDueDate r3 = .ok r4 ∧
      Gateway.applyRemindOpt env payload.remindMeDate r4 = .ok r5 ∧
      r' = Gateway.applyCompletedOpt env payload.completed
        (Gateway.applyPriorityOpt payload.priority r5) := by
  unfold Gateway.applyReminderUpdate at h
  dsimp only at h
  rcases h3 : Gateway.applyDueOpt env payload.dueDate
      (Gateway.applyBodyOpt payload.body
        (Gateway.applyNewNameOpt payload.newName r)) with e | r3
  · rw [h3] at h
    simp [bind, Except.bind] at h
  rw [h3] at h
  simp only [bind, Except.bind] at h
  rcases h4 : Gateway.applyAllDayOpt env payload.allDayDueDate r3 with e | r4
  · rw [h4] at h
    simp [Except.bind] at h
  rw [h4] at h
  simp only [Except.bind] at h
  rcases h5 : Gateway.applyRemindOpt env payload.remindMeDate r4 with e | r5
  · rw [h5] at h
    simp [Except.bind] at h
  rw [h5] at h
  simp only [Except.bind, pure, Except.pure, Except.ok.injEq] at h
  exact ⟨r3, r4, r5, rfl, h4, h5, h.symm⟩

theorem buildCreatedReminder_decomp {env : Env} {payload : CreateReminderPayload}
    {cal : EKCalendar} {rb : EKReminder}
    (h : Gateway.buildCreatedReminder env payload cal = .ok rb) :
    ∃ r3 r4 r5 : EKReminder,
      Gateway.applyDueOpt env payload.dueDate
        (Gateway.applyBodyOpt payload.body
          { Gateway.freshReminder env cal with title := payload.name }) = .ok r3 ∧
      Gateway.applyAllDayOpt env payload.allDayDueDate r3 = .ok r4 ∧
      Gateway.applyRemindOpt env payload.remindMeDate r4 = .ok r5 ∧
      rb = Gateway.applyPriorityOpt payload.priority r5 := by
  unfold Gateway.buildCreatedReminder at h
  dsimp only at h
  rcases h3 : Gateway.applyDueOpt env payload.dueDate
      (Gateway.applyBodyOpt payload.body
        { Gateway.freshReminder env cal with title := payload.name }) with e | r3
  · rw [h3] at h
    simp [bind, Except.bind] at h
  rw [h3] at h
  simp only [bind, Except.bind] at h
  rcases h4 : Gateway.applyAllDayOpt env payload.allDayDueDate r3 with e | r4
  · rw [h4] at h
    simp [Except.bind] at h
  rw [h4] at h
  simp only [Except.bind] at h
  rcases h5 : Gateway.applyRemindOpt env payload.remindMeDate r4 with e | r5
  · rw [h5] at h
    simp [Except.bind] at h
  rw [h5] at h
  simp only [Except.bind, pure, Except.pure, Except.ok.injEq] at h
  exact ⟨r3, r4, r5, rfl, h4, h5, h.symm⟩

theorem operationCreateReminder_ok {env : Env} {store store1 : EKEventStore}
    {payload : CreateReminderPayload} {res : CreateIdResult}
    (hok : Gateway.operationCreateReminder env store payload = .ok (store1, res)) :
    ∃ (cal : EKCalendar) (rb : EKReminder),
      Gateway.calendarByName payload.listName store.calendars = some cal ∧
      Gateway.buildCreatedReminder env payload cal = .ok rb ∧
      store1.reminders = store.reminders ++ [rb] := by
  unfold Gateway.operationCreateReminder Gateway.allReminderCalendars at hok
  dsimp only at hok
  rcases hcal : Gateway.calendarByName payload.listName store.calendars with _ | cal
  · rw [hcal] at hok
    simp at hok
  · rw [hcal] at hok
    dsimp only at hok
    by_cases hname : trimString payload.name = ""
    · rw [if_pos hname] at hok
      simp at hok
    · rw [if_neg hname] at hok
      rcases hb : Gateway.buildCreatedReminder env payload cal with e | rb
      · rw [hb] at hok
        simp [bind, Except.bind] at hok
      · rw [hb] at hok
        simp only [bind, Except.bind, Except.ok.injEq, Prod.mk.injEq] at hok
        refine ⟨cal, rb, rfl, hb, ?_⟩
        rw [← hok.1]

/-- C4: an update-reminder request in which all optional fields are absent
fails with the domain error "No updates provided" and leaves the store
unchanged; it never succeeds. -/
theorem claim_C4 (env : Env) (store : EKEventStore) (payload : UpdateReminderPayload)
    (h1 : payload.newName = none) (h2 : payload.body = none)
    (h3 : payload.dueDate = none) (h4 : payload.allDayDueDate = none)
    (h5 : payload.remindMeDate = none) (h6 : payload.priority = none)
    (h7 : payload.completed = none) :
    Gateway.runUpdateReminder env store payload =
      (store, .error "No updates provided") := by
  unfold Gateway.runUpdateReminder Gateway.operationUpdateReminder
  rw [if_pos ⟨h1, h2, h3, h4, h5, h6, h7⟩]

/-- Witness for C4 at a concrete input. -/
theorem claim_C4_witness :
    Gateway.runUpdateReminder envW storeW pU4 =
      (storeW, .error "No updates provided") :=
  claim_C4 envW storeW pU4 rfl rfl rfl rfl rfl rfl rfl

/-- C10: in a successful update, every field of the located reminder whose
payload field is absent keeps its prior value (title, notes, due-date
components, alarms, priority, completion state), and the completion
timestamp is set to now exactly when `completed = true` is supplied and
cleared exactly when `completed = false` is supplied. -/
theorem claim_C10 (env : Env) (payload : UpdateReminderPayload) (r r' : EKReminder)
    (hok : Gateway.applyReminderUpdate env payload r = .ok r') :
    (payload.newName = none → r'.title = r.title) ∧
    (payload.body = none → r'.notes = r.notes) ∧
    (payload.dueDate = none → payload.allDayDueDate = none →
      r'.dueDateComponents = r.dueDateComponents) ∧
    (payload.remindMeDate = none → r'.alarms = r.alarms) ∧
    (payload.priority = none → r'.priority = r.priority) ∧
    (payload.completed = none → r'.isCompleted = r.isCompleted ∧
      r'.completionDate = r.completionDate) ∧
    (payload.completed = some true → r'.isCompleted = true ∧
      r'.completionDate = some env.now) ∧
    (payload.completed = some false → r'.isCompleted = false ∧
      r'.completionDate = none) := by
  obtain ⟨r3, r4, r5, h3, h4, h5, hr'⟩ := applyReminderUpdate_decomp hok
  obtain ⟨t3, n3, a3, p3, c3, d3⟩ := applyDueOpt_frame h3
  obtain ⟨t4, n4, a4, p4, c4, d4⟩ := applyAllDayOpt_frame h4
  obtain ⟨t5, n5, u5, p5, c5, d5⟩ := applyRemindOpt_frame h5
  obtain ⟨t6, n6, u6, a6, c6, d6⟩ := applyPriorityOpt_frame payload.priority r5
  obtain ⟨t7, n7, u7, a7, p7⟩ :=
    applyCompletedOpt_frame env payload.completed
      (Gateway.applyPriorityOpt payload.priority r5)
  obtain ⟨tb, ub, ab, pb, cb, db⟩ :=
    applyBodyOpt_frame payload.body (Gateway.applyNewNameOpt payload.newName r)
  obtain ⟨nn, un, an, pn, cn, dn⟩ := applyNewNameOpt_frame payload.newName r
  subst hr'
  refine ⟨?_, ?_, ?_, ?_, ?_, ?_, ?_, ?_⟩
  · intro h
    rw [t7, t6, t5, t4, t3, tb, h, applyNewNameOpt_none]
  · intro h
    rw [n7, n6, n5, n4, n3, h, applyBodyOpt_none, nn]
  · intro h h'
    rw [h, applyDueOpt_none] at h3
    rw [h', applyAllDayOpt_none] at h4
    simp only [Except.ok.injEq] at h3 h4
    rw [u7, u6, u5, ← h4, ← h3, ub, un]
  · intro h
    rw [h, applyRemindOpt_none] at h5
    simp only [Except.ok.injEq] at h5
    rw [a7, a6, ← h5, a4, a3, ab, an]
  · intro h
    rw [p7, h, applyPriorityOpt_none, p5, p4, p3, pb, pn]
  · intro h
    rw [h, applyCompletedOpt_none]
    constructor
    · rw [c6, c5, c4, c3, cb, cn]
    · rw [d6, d5, d4, d3, db, dn]
  · intro h
    rw [h]
    exact ⟨rfl, rfl⟩
  · intro h
    rw [h]
    exact ⟨rfl, rfl⟩

/-- Witness for C10 at a concrete input: updating only `completed = true`
sets the completion timestamp to now. -/
theorem claim_C10_witness :
    remA10.isCompleted = true ∧ remA10.completionDate = some envW.now :=
  (claim_C10 envW pU10 remA remA10 rfl).2.2.2.2.2.2.1 rfl

/-- C5: when a create or update request supplies both a parseable timed
`dueDate` and a parseable `allDayDueDate`, the stored due-date slot holds
the all-day value (the all-day assignment is applied after the timed one
and overwrites it), so it carries year/month/day components only. -/
theorem claim_C5 (env : Env) :
    (∀ (store store1 : EKEventStore) (payload : CreateReminderPayload)
       (res : CreateIdResult) (s1 s2 : String) (d1 d2 : Int),
      payload.dueDate = some s1 → payload.allDayDueDate = some s2 →
      Gateway.parseISODate env s1 = some d1 → env.allDayParse s2 = some d2 →
      Gateway.operationCreateReminder env store payload = .ok (store1, res) →
      ∃ rb : EKReminder, store1.reminders = store.reminders ++ [rb] ∧
        Gateway.dateComponentsFromAllDay env s2 = .ok
          ⟨some (env.components6 d2).year, some (env.components6 d2).month,
            some (env.components6 d2).day, none, none, none⟩ ∧
        rb.dueDateComponents = some
          ⟨some (env.components6 d2).year, some (env.components6 d2).month,
            some (env.components6 d2).day, none, none, none⟩) ∧
    (∀ (payload : UpdateReminderPayload) (r r' : EKReminder) (s1 s2 : String)
       (d1 d2 : Int),
      payload.dueDate = some s1 → payload.allDayDueDate = some s2 →
      Gateway.parseISODate env s1 = some d1 → env.allDayParse s2 = some d2 →
      Gateway.applyReminderUpdate env payload r = .ok r' →
      r'.dueDateComponents = some
        ⟨some (env.components6 d2).year, some (env.components6 d2).month,
          some (env.components6 d2).day, none, none, none⟩) := by
  constructor
  · intro store store1 payload res s1 s2 d1 d2 hdue hall hiso hparse hok
    obtain ⟨cal, rb, hcal, hbuild, hstore⟩ := operationCreateReminder_ok hok
    obtain ⟨r3, r4, r5, h3, h4, h5, hrb⟩ := buildCreatedReminder_decomp hbuild
    refine ⟨rb, hstore, ?_, ?_⟩
    · unfold Gateway.dateComponentsFromAllDay
      rw [hparse]
    · rw [hall] at h4
      simp only [Gateway.applyAllDayOpt, Gateway.dateComponentsFromAllDay, hparse]
        at h4
      simp only [Except.ok.injEq] at h4
      obtain ⟨t5, n5, u5, p5, c5, d5⟩ := applyRemindOpt_frame h5
      obtain ⟨t6, n6, u6, a6, c6, d6⟩ := applyPriorityOpt_frame payload.priority r5
      rw [hrb, u6, u5, ← h4]
  · intro payload r r' s1 s2 d1 d2 hdue hall hiso hparse hok
    obtain ⟨r3, r4, r5, h3, h4, h5, hr'⟩ := applyReminderUpdate_decomp hok
    rw [hall] at h4
    simp only [Gateway.applyAllDayOpt, Gateway.dateComponentsFromAllDay, hparse] at h4
    simp only [Except.ok.injEq] at h4
    obtain ⟨t5, n5, u5, p5, c5, d5⟩ := applyRemindOpt_frame h5
    obtain ⟨t6, n6, u6, a6, c6, d6⟩ := applyPriorityOpt_frame payload.priority r5
    obtain ⟨t7, n7, u7, a7, p7⟩ :=
      applyCompletedOpt_frame env payload.completed
        (Gateway.applyPriorityOpt payload.priority r5)
    rw [hr', u7, u6, u5, ← h4]

/-- Witness for C5 at a concrete input: creating with both due-date forms
stores the all-day components. -/
theorem claim_C5_witness :
    ∃ rb : EKReminder, storeC5out.reminders = storeW.reminders ++ [rb] ∧
      Gateway.dateComponentsFromAllDay envW "2024-12-31" = .ok
        ⟨some (envW.components6 300).year, some (envW.components6 300).month,
          some (envW.components6 300).day, none, none, none⟩ ∧
      rb.dueDateComponents = some
        ⟨some (envW.components6 300).year, some (envW.components6 300).month,
          some (envW.components6 300).day, none, none, none⟩ :=
  (claim_C5 envW).1 storeW storeC5out pC5 ⟨"fresh-id"⟩
    "2024-03-05T10:00:00Z" "2024-12-31" 100 300 rfl rfl rfl rfl rfl

/-- C9: a create or update request with a parseable `remindMeDate` leaves
the reminder with exactly one absolute alarm at that timestamp; any
previously attached alarms are replaced, not merged. -/
theorem claim_C9 (env : Env) :
    (∀ (store store1 : EKEventStore) (payload : CreateReminderPayload)
       (res : CreateIdResult) (s : String) (t : Int),
      payload.remindMeDate = some s → Gateway.parseISODate env s = some t →
      Gateway.operationCreateReminder env store payload = .ok (store1, res) →
      ∃ rb : EKReminder, store1.reminders = store.reminders ++ [rb] ∧
        rb.alarms = some [⟨some t⟩]) ∧
    (∀ (payload : UpdateReminderPayload) (r r' : EKReminder) (s : String) (t : Int),
      payload.remindMeDate = some s → Gateway.parseISODate env s = some t →
      Gateway.applyReminderUpdate env payload r = .ok r' →
      r'.alarms = some [⟨some t⟩]) := by
  constructor
  · intro store store1 payload res s t hrm hparse hok
    obtain ⟨cal, rb, hcal, hbuild, hstore⟩ := operationCreateReminder_ok hok
    obtain ⟨r3, r4, r5, h3, h4, h5, hrb⟩ := buildCreatedReminder_decomp hbuild
    rw [hrm] at h5
    simp only [Gateway.applyRemindOpt, hparse] at h5
    simp only [Except.ok.injEq] at h5
    obtain ⟨t6, n6, u6, a6, c6, d6⟩ := applyPriorityOpt_frame payload.priority r5
    exact ⟨rb, hstore, by rw [hrb, a6, ← h5]⟩
  · intro payload r r' s t hrm hparse hok
    obtain ⟨r3, r4, r5, h3, h4, h5, hr'⟩ := applyReminderUpdate_decomp hok
    rw [hrm] at h5
    simp only [Gateway.applyRemindOpt, hparse] at h5
    simp only [Except.ok.injEq] at h5
    obtain ⟨t6, n6, u6, a6, c6, d6⟩ := applyPriorityOpt_frame payload.priority r5
    obtain ⟨t7, n7, u7, a7, p7⟩ :=
      applyCompletedOpt_frame env payload.completed
        (Gateway.applyPriorityOpt payload.priority r5)
    rw [hr', a7, a6, ← h5]

/-- Witness for C9 at a concrete input: updating `remA` (no prior alarms
relevant) with a notification date yields exactly one absolute alarm. -/
theorem claim_C9_witness :
    ({ remA with alarms := some [⟨some 100⟩] } : EKReminder).alarms =
      some [⟨some (100 : Int)⟩] :=
  (claim_C9 envW).2 pU9 remA { remA with alarms := some [⟨some 100⟩] }
    "2024-03-05T10:00:00Z" 100 rfl rfl rfl

/-- C3: for every (listName, completed) filter pair over the same store
state, the count returned by `operationCountReminders` equals the length
of the reminder sequence returned by `operationListReminders` with the
same filter and a limit at least the total. -/
theorem claim_C3 (env : Env) (store : EKEventStore) (ln : Option String)
    (c : Option Bool) (lim n : Int)
    (hcount : Gateway.operationCountReminders store ⟨ln, c⟩ = .ok ⟨n⟩)
    (hlim : n ≤ lim) :
    ∃ res : ListRemindersResult,
      Gateway.operationListReminders env store ⟨ln, c, some lim, none⟩ = .ok res ∧
      (res.reminders.length : Int) = n := by
  unfold Gateway.operationCountReminders Gateway.allReminderCalendars at hcount
  dsimp only at hcount
  rcases hsel : Gateway.selectCalendars ln store.calendars with e | sel
  · rw [hsel] at hcount
    simp [bind, Except.bind] at hcount
  rw [hsel] at hcount
  simp only [bind, Except.bind, Except.ok.injEq, CountResult.mk.injEq] at hcount
  have hlist : Gateway.operationListReminders env store ⟨ln, c, some lim, none⟩ =
      .ok ⟨((Gateway.sortReminders env (Gateway.completedFilter c
            (Gateway.fetchReminders store sel))).length : Int),
          ((Gateway.sortReminders env (Gateway.completedFilter c
            (Gateway.fetchReminders store sel))).take
              (max 1 lim).toNat).map (Gateway.mapReminder env)⟩ := by
    unfold Gateway.operationListReminders Gateway.allReminderCalendars
    dsimp only
    rw [hsel]
    simp only [bind, Except.bind, Option.getD_none, Option.getD_some, max_self,
      Int.toNat_zero, List.drop_zero]
  refine ⟨_, hlist, ?_⟩
  dsimp only
  rw [List.length_map, List.length_take, sortReminders_length]
  omega

/-- Witness for C3 at a concrete input: counting the "Work" list agrees
with listing it with a sufficient limit. -/
theorem claim_C3_witness :
    ∃ res : ListRemindersResult,
      Gateway.operationListReminders envW storeW
        ⟨some "Work", none, some 2, none⟩ = .ok res ∧
      (res.reminders.length : Int) = 2 :=
  claim_C3 envW storeW (some "Work") none 2 2 rfl (by decide)

/-- C8: the normalizer maps a missing or unparseable
completion/due/all-day/notification timestamp to an absent value (never an
epoch default), while a missing or unparseable creation or modification
timestamp defaults to the current time. -/
theorem claim_C8 (env : Env) (h : HelperReminder) :
    ((h.completionDate = none ∨ ∃ s, h.completionDate = some s ∧
        (s = "" ∨ env.jsDateParse s = none)) →
      (Svc.mapReminder env h).completionDate = none) ∧
    ((h.dueDate = none ∨ ∃ s, h.dueDate = some s ∧
        (s = "" ∨ env.jsDateParse s = none)) →
      (Svc.mapReminder env h).dueDate = none) ∧
    ((h.allDayDueDate = none ∨ ∃ s, h.allDayDueDate = some s ∧
        (s = "" ∨ env.jsDateParse s = none)) →
      (Svc.mapReminder env h).allDayDueDate = none) ∧
    ((h.remindMeDate = none ∨ ∃ s, h.remindMeDate = some s ∧
        (s = "" ∨ env.jsDateParse s = none)) →
      (Svc.mapReminder env h).remindMeDate = none) ∧
    ((h.creationDate = none ∨ ∃ s, h.creationDate = some s ∧
        (s = "" ∨ env.jsDateParse s = none)) →
      (Svc.mapReminder env h).creationDate = env.now) ∧
    ((h.modificationDate = none ∨ ∃ s, h.modificationDate = some s ∧
        (s = "" ∨ env.jsDateParse s = none)) →
      (Svc.mapReminder env h).modificationDate = env.now) := by
  have key : ∀ v : Option String,
      (v = none ∨ ∃ s, v = some s ∧ (s = "" ∨ env.jsDateParse s = none)) →
      Svc.parseDate env v = none := by
    rintro v (rfl | ⟨s, rfl, rfl | hp⟩)
    · rfl
    · rfl
    · unfold Svc.parseDate
      dsimp only
      split_ifs with hs
      · rfl
      · exact hp
  refine ⟨fun hh => key _ hh, fun hh => key _ hh, fun hh => key _ hh,
    fun hh => key _ hh, fun hh => ?_, fun hh => ?_⟩
  · show (Svc.parseDate env h.creationDate).getD env.now = env.now
    rw [key _ hh]
    rfl
  · show (Svc.parseDate env h.modificationDate).getD env.now = env.now
    rw [key _ hh]
    rfl

/-- Witness for C8 at a concrete input: an unparseable completion date
normalizes to absent and a missing creation date defaults to now. -/
theorem claim_C8_witness :
    (Svc.mapReminder envW hrecW).completionDate = none ∧
      (Svc.mapReminder envW hrecW).creationDate = envW.now :=
  ⟨(claim_C8 envW hrecW).1 (Or.inr ⟨"garbage", rfl, Or.inr rfl⟩),
    (claim_C8 envW hrecW).2.2.2.2.1 (Or.inl rfl)⟩

/-- C6 counterexample: with two reminders named "n" in the list, the
located (and deleted) reminder is `rem6a`, the first match in fetch
(store) order, while the first match under the canonical sort order is
`rem6b` — a different reminder.  The claim as stated is false. -/
theorem claim_C6_counterexample :
    Gateway.locateReminderByName store6 "L" "n" = .ok rem6a ∧
    (Gateway.sortReminders envW (Gateway.fetchReminders store6 (some [cal6]))).find?
      (fun r => r.title == "n") = some rem6b ∧
    rem6a ≠ rem6b ∧
    Gateway.operationDeleteReminder store6 ⟨"L", "n"⟩ =
      .ok (⟨[cal6], [rem6b]⟩, ⟨⟩) := by
  refine ⟨rfl, ?_, ?_, rfl⟩
  · rfl
  · decide

/-- C6 amended: the reminder operated on by update/delete is the first
match in the order the native fetch returns reminders (store order), not
the first match under the canonical sort order. -/
theorem claim_C6_amended (store : EKEventStore) (listName reminderName : String)
    (cal : EKCalendar) (r : EKReminder)
    (hcal : Gateway.calendarByName listName store.calendars = some cal)
    (hloc : Gateway.locateReminderByName store listName reminderName = .ok r) :
    (Gateway.fetchReminders store (some [cal])).find?
      (fun x => x.title == reminderName) = some r := by
  unfold Gateway.locateReminderByName Gateway.allReminderCalendars at hloc
  dsimp only at hloc
  rw [hcal] at hloc
  dsimp only at hloc
  rcases hf : (Gateway.fetchReminders store (some [cal])).find?
      (fun x => x.title == reminderName) with _ | r0
  · rw [hf] at hloc
    simp at hloc
  · rw [hf] at hloc
    simp only [Except.ok.injEq] at hloc
    rw [hf, hloc]

/-- Witness for the amended C6 at a concrete input. -/
theorem claim_C6_witness :
    (Gateway.fetchReminders store6 (some [cal6])).find? (fun x => x.title == "n") =
      some rem6a :=
  claim_C6_amended store6 "L" "n" cal6 rem6a rfl rfl

/-- C7 counterexample: when the envelope has discriminant false but an
EMPTY error message, the codec throws the generic helper-failed message,
not the envelope's (empty) message.  The claim as stated is false. -/
theorem claim_C7_counterexample :
    Svc.parseEnvelope jsParseW "x" "listLists" =
      .error "EventKit helper failed for operation \x27listLists\x27" ∧
    Svc.parseEnvelope jsParseW "x" "listLists" ≠ .error "" := by
  have h1 : Svc.parseEnvelope jsParseW "x" "listLists" =
      .error "EventKit helper failed for operation \x27listLists\x27" := rfl
  refine ⟨h1, fun hcon => ?_⟩
  rw [h1] at hcon
  exact (by decide :
    ("EventKit helper failed for operation \x27listLists\x27" : String) ≠ "")
    (Except.error.inj hcon)

/-- C7 amended: an empty stdout and a non-JSON stdout each yield an error
mentioning the operation name; an envelope with discriminant false yields
a domain error carrying the envelope's error message when that message is
nonempty, and a generic helper-failed message naming the operation when
it is empty; on non-zero exit the codec parses any printed (non-blank)
stdout as the envelope first, and produces the generic process-failure
message only when nothing was printed. -/
theorem claim_C7_amended {T : Type} (jsParse : String → Option (Svc.JsEnvelope T))
    (op : String) :
    (∀ stdout, trimString stdout = "" →
      ∃ msg, Svc.parseEnvelope jsParse stdout op = .error msg ∧ mentionsOp msg op) ∧
    (∀ stdout, trimString stdout ≠ "" → jsParse (trimString stdout) = none →
      ∃ msg, Svc.parseEnvelope jsParse stdout op = .error msg ∧ mentionsOp msg op) ∧
    (∀ stdout p, trimString stdout ≠ "" → jsParse (trimString stdout) = some p →
      p.okTruthy = false → p.errorField ≠ "" →
      Svc.parseEnvelope jsParse stdout op = .error p.errorField) ∧
    (∀ stdout p, trimString stdout ≠ "" → jsParse (trimString stdout) = some p →
      p.okTruthy = false → p.errorField = "" →
      ∃ msg, Svc.parseEnvelope jsParse stdout op = .error msg ∧ mentionsOp msg op) ∧
    (∀ out stderrOpt message, trimString out ≠ "" →
      Svc.runHelper jsParse (.failure (some out) stderrOpt message) op =
        Svc.parseEnvelope jsParse out op) ∧
    (∀ stderrOpt message, ∃ details,
      Svc.runHelper jsParse (.failure none stderrOpt message) op =
        .error ("EventKit operation \x27" ++ op ++ "\x27 failed: " ++ details)) ∧
    (∀ out stderrOpt message, trimString out = "" → ∃ details,
      Svc.runHelper jsParse (.failure (some out) stderrOpt message) op =
        .error ("EventKit operation \x27" ++ op ++ "\x27 failed: " ++ details)) := by
  refine ⟨?_, ?_, ?_, ?_, ?_, ?_, ?_⟩
  · intro stdout h
    unfold Svc.parseEnvelope
    dsimp only
    rw [h, if_pos rfl]
    exact ⟨_, rfl, ⟨"EventKit helper returned empty response for operation \x27",
      "\x27", rfl⟩⟩
  · intro stdout h hp
    unfold Svc.parseEnvelope
    dsimp only
    rw [if_neg h, hp]
    exact ⟨_, rfl, ⟨"Failed to parse EventKit helper response for \x27",
      "\x27: " ++ trimString stdout, (String.append_assoc _ _ _)⟩⟩
  · intro stdout p h hp hok herr
    unfold Svc.parseEnvelope
    dsimp only
    rw [if_neg h, hp]
    dsimp only
    rw [if_pos hok, if_neg herr]
  · intro stdout p h hp hok herr
    unfold Svc.parseEnvelope
    dsimp only
    rw [if_neg h, hp]
    dsimp only
    rw [if_pos hok, if_pos herr]
    exact ⟨_, rfl, ⟨"EventKit helper failed for operation \x27", "\x27", rfl⟩⟩
  · intro out stderrOpt message h
    unfold Svc.runHelper
    dsimp only
    rw [if_pos h]
  · intro stderrOpt message
    exact ⟨_, rfl⟩
  · intro out stderrOpt message h
    unfold Svc.runHelper
    dsimp only
    rw [if_neg (show ¬(trimString out ≠ "") from fun hc => hc h)]
    exact ⟨_, rfl⟩

/-- Witness for the amended C7 at a concrete input: a blank stdout yields
an error mentioning the operation. -/
theorem claim_C7_witness :
    ∃ msg, Svc.parseEnvelope jsParseW "   " "countReminders" = .error msg ∧
      mentionsOp msg "countReminders" :=
  (claim_C7_amended jsParseW "countReminders").1 "   " rfl

/-- Chunking: the concatenation of the successive pages of size `L`
of a list reconstructs the list. -/
theorem flatten_chunks (l : List α) (L : Nat) (n : Nat)
    (hn : l.length ≤ n * L) :
    ((List.range n).map (fun k => (l.drop (k * L)).take L)).flatten = l := by
  have key : ∀ m : Nat,
      ((List.range m).map (fun k => (l.drop (k * L)).take L)).flatten =
        l.take (m * L) := by
    intro m
    induction m with
    | zero => simp
    | succ m ih =>
      rw [List.range_succ, List.map_append, List.flatten_append, ih]
      simp only [List.map_cons, List.map_nil, List.flatten_cons, List.flatten_nil,
        List.append_nil]
      rw [Nat.succ_mul, List.take_add]
  rw [key n, List.take_of_length_le hn]

/-- Evaluation of `operationListReminders` on a validated payload. -/
theorem operationListReminders_eval (env : Env) (store : EKEventStore)
    (ln : Option String) (c : Option Bool) (lim off : Int)
    (sel : Option (List EKCalendar))
    (hsel : Gateway.selectCalendars ln store.calendars = .ok sel)
    (hoff : 0 ≤ off) (hlim : 1 ≤ lim) :
    Gateway.operationListReminders env store ⟨ln, c, some lim, some off⟩ =
      .ok ⟨((Gateway.sortReminders env (Gateway.completedFilter c
            (Gateway.fetchReminders store sel))).length : Int),
          (((Gateway.sortReminders env (Gateway.completedFilter c
            (Gateway.fetchReminders store sel))).drop off.toNat).take lim.toNat).map
            (Gateway.mapReminder env)⟩ := by
  unfold Gateway.operationListReminders Gateway.allReminderCalendars
  dsimp only
  rw [hsel]
  simp only [bind, Except.bind, Option.getD_some]
  rw [show max 0 off = off from by omega, show max 1 lim = lim from by omega]

/-- Evaluation of the `reminders_list` handler on validated parameters. -/
theorem remindersListHandler_eval (env : Env) (store : EKEventStore)
    (p : ValidatedListParams) (sel : Option (List EKCalendar))
    (hsel : Gateway.selectCalendars p.listName store.calendars = .ok sel)
    (hoff : 0 ≤ p.offset) (hlim : 1 ≤ p.limit) :
    remindersListHandler env store p = .ok
      { total := ((Gateway.sortReminders env (Gateway.completedFilter p.completed
            (Gateway.fetchReminders store sel))).length : Int)
        count := (((((Gateway.sortReminders env (Gateway.completedFilter p.completed
            (Gateway.fetchReminders store sel))).drop p.offset.toNat).take
              p.limit.toNat).map (Gateway.mapReminder env)).map
            (fun rec => Svc.mapReminder env (recordToHelper rec))).length
        offset := p.offset
        reminders := ((((Gateway.sortReminders env (Gateway.completedFilter p.completed
            (Gateway.fetchReminders store sel))).drop p.offset.toNat).take
              p.limit.toNat).map (Gateway.mapReminder env)).map
            (fun rec => Svc.mapReminder env (recordToHelper rec))
        hasMore := decide (p.offset + p.limit <
          ((Gateway.sortReminders env (Gateway.completedFilter p.completed
            (Gateway.fetchReminders store sel))).length : Int))
        nextOffset :=
          if decide (p.offset + p.limit <
              ((Gateway.sortReminders env (Gateway.completedFilter p.completed
                (Gateway.fetchReminders store sel))).length : Int)) = true then
            some (p.offset + p.limit)
          else none } := by
  unfold remindersListHandler
  rw [operationListReminders_eval env store p.listName p.completed p.limit p.offset
    sel hsel hoff hlim]
  simp only [bind, Except.bind]

/-- C2: for every `reminders_list` request, the validated pagination
parameters satisfy offset ≥ 0 (default 0) and 1 ≤ limit ≤ 200 (default
50); pagination is applied after filtering and sorting; the reported
total is the filtered-but-unpaginated count; `hasMore = offset + limit <
total`; and the concatenation of the successive pages of size `limit`
reconstructs the full sorted filtered sequence with no duplicates or
gaps. -/
theorem claim_C2 (env : Env) (store : EKEventStore) (raw : RawListParams)
    (p : ValidatedListParams) (sel : Option (List EKCalendar))
    (hv : validateListRequest raw = some p)
    (hsel : Gateway.selectCalendars p.listName store.calendars = .ok sel) :
    (1 ≤ p.limit ∧ p.limit ≤ 200 ∧ 0 ≤ p.offset ∧
      (raw.limit = none → p.limit = 50) ∧ (raw.offset = none → p.offset = 0)) ∧
    (∃ out : ListToolOutput,
      remindersListHandler env store p = .ok out ∧
      out.total = ((Gateway.sortReminders env (Gateway.completedFilter p.completed
        (Gateway.fetchReminders store sel))).length : Int) ∧
      out.reminders = ((((Gateway.sortReminders env
            (Gateway.completedFilter p.completed
              (Gateway.fetchReminders store sel))).drop p.offset.toNat).take
            p.limit.toNat).map (Gateway.mapReminder env)).map
          (fun rec => Svc.mapReminder env (recordToHelper rec)) ∧
      out.hasMore = decide (p.offset + p.limit < out.total)) ∧
    (∀ n : Nat,
      (Gateway.sortReminders env (Gateway.completedFilter p.completed
        (Gateway.fetchReminders store sel))).length ≤ n * p.limit.toNat →
      ((List.range n).map (fun (k : Nat) =>
        match remindersListHandler env store
            { p with offset := (k : Int) * p.limit } with
        | .ok out => out.reminders
        | .error _ => [])).flatten =
      (Gateway.sortReminders env (Gateway.completedFilter p.completed
          (Gateway.fetchReminders store sel))).map
        (fun r => Svc.mapReminder env (recordToHelper (Gateway.mapReminder env r)))) := by
  have hparams : 1 ≤ p.limit ∧ p.limit ≤ 200 ∧ 0 ≤ p.offset ∧
      (raw.limit = none → p.limit = 50) ∧ (raw.offset = none → p.offset = 0) := by
    unfold validateListRequest at hv
    dsimp only at hv
    split_ifs at hv with hcond
    · simp only [Option.some.injEq] at hv
      subst hv
      dsimp only
      refine ⟨hcond.1, hcond.2.1, hcond.2.2, fun h => ?_, fun h => ?_⟩
      · rw [h]
        rfl
      · rw [h]
        rfl
  obtain ⟨hlim, hmax, hoff, hdl, hdo⟩ := hparams
  refine ⟨⟨hlim, hmax, hoff, hdl, hdo⟩, ?_, ?_⟩
  · exact ⟨_, remindersListHandler_eval env store p sel hsel hoff hlim, rfl, rfl, rfl⟩
  · intro n hn
    have hlimcast : (p.limit : Int) = ((p.limit.toNat : Nat) : Int) := by omega
    have hoffk : ∀ k : Nat, (((k : Int) * p.limit)).toNat = k * p.limit.toNat := by
      intro k
      rw [hlimcast, ← Nat.cast_mul]
      rfl
    have hpage : ∀ k ∈ List.range n,
        (match remindersListHandler env store
            { p with offset := (k : Int) * p.limit } with
        | .ok out => out.reminders
        | .error _ => ([] : List Reminder)) =
        (((Gateway.sortReminders env (Gateway.completedFilter p.completed
            (Gateway.fetchReminders store sel))).drop (k * p.limit.toNat)).take
            p.limit.toNat).map
          (fun r => Svc.mapReminder env (recordToHelper (Gateway.mapReminder env r))) := by
      intro k _
      have hoffk0 : (0 : Int) ≤ (k : Int) * p.limit :=
        mul_nonneg (by positivity) (by omega)
      rw [remindersListHandler_eval env store { p with offset := (k : Int) * p.limit }
        sel hsel hoffk0 hlim]
      dsimp only
      rw [hoffk k, List.map_map]
      rfl
    refine Eq.trans (congrArg List.flatten ((List.map_eq_map_iff (l := List.range n)).mpr hpage)) ?_
    have hcomp : ((List.range n).map (fun k =>
        ((Gateway.sortReminders env (Gateway.completedFilter p.completed
          (Gateway.fetchReminders store sel))).drop (k * p.limit.toNat)).take
          p.limit.toNat)).map
        (List.map (fun r => Svc.mapReminder env
          (recordToHelper (Gateway.mapReminder env r)))) =
        (List.range n).map (fun k =>
          (((Gateway.sortReminders env (Gateway.completedFilter p.completed
            (Gateway.fetchReminders store sel))).drop (k * p.limit.toNat)).take
            p.limit.toNat).map
          (fun r => Svc.mapReminder env
            (recordToHelper (Gateway.mapReminder env r)))) := by
      rw [List.map_map]
      rfl
    rw [← hcomp, ← List.map_flatten,
      flatten_chunks (l := Gateway.sortReminders env (Gateway.completedFilter
        p.completed (Gateway.fetchReminders store sel))) (L := p.limit.toNat) n hn]

/-- Witness for C2 at a concrete input: listing the "Work" list with the
default parameters. -/
theorem claim_C2_witness :
    ∃ out : ListToolOutput,
      remindersListHandler envW storeW p50 = .ok out ∧
      out.total = ((Gateway.sortReminders envW (Gateway.completedFilter p50.completed
        (Gateway.fetchReminders storeW (some [calW])))).length : Int) ∧
      out.reminders = ((((Gateway.sortReminders envW
            (Gateway.completedFilter p50.completed
              (Gateway.fetchReminders storeW (some [calW])))).drop
              p50.offset.toNat).take
            p50.limit.toNat).map (Gateway.mapReminder envW)).map
          (fun rec => Svc.mapReminder envW (recordToHelper rec)) ∧
      out.hasMore = decide (p50.offset + p50.limit < out.total) :=
  (claim_C2 envW storeW raw0 p50 (some [calW]) rfl rfl).2.1
